import Mathlib

/-!
Shallow embedding of the BoardBot natural-language command interpreter
(`src/app.py`: `process_ai_request`, `parse_task_creation`, `extract_task_id`,
`extract_status`; `src/tools.py`: the task-store tools `add_task`,
`update_task_status`, `delete_task`, `get_tasks`, `get_task_stats`).

Modelling choices:
- Python `str` is Lean `String`; `str.lower`, `str.split()`, `str.strip`,
  substring membership (`in`) and `int(...)` are modelled by the `py*`
  helpers below over ASCII (the keyword tests of the source are all ASCII).
- The SQLite store is a `Store` value: the tasks list is the `tasks` table in
  rowid order, `nextId` models the AUTOINCREMENT counter, and `createdAt`
  models the `created_at` column as the insertion counter.
- The Gemini call `model.generate_content` is an external collaborator; its
  outcome is passed in as `Except String String` (`.error e` = the call
  raised with message `e`).
- Exceptions are modelled with `Except`: `process_ai_request_try` is the body
  of the `try:` block (an `.error` value is an exception escaping the block),
  and `process_ai_request` is the whole function including the
  `except Exception` handler.
- Alongside its response text and the updated store, the interpreter returns
  the list of external calls it performed (`Call`), so that claims about
  which tool is dispatched are statable.
-/

namespace BoardBot

/-- Python `str.lower()` restricted to ASCII (`Char.toLower` maps `A`-`Z`). -/
def pyLower (s : String) : String :=
  String.mk (s.toList.map Char.toLower)

/-- The character list of `pyLower s`; `extract_task_id` scans this list. -/
def lowerChars (s : String) : List Char :=
  s.toList.map Char.toLower

/-- `needle` is a prefix of `hay` (helper for the substring test). -/
def isSubAt : List Char → List Char → Bool
  | [], _ => true
  | _ :: _, [] => false
  | a :: as, b :: bs => a == b && isSubAt as bs

/-- Helper for `substr`: does `needle` occur in the list at any position? -/
def substrAux (needle : List Char) : List Char → Bool
  | [] => isSubAt needle []
  | c :: rest => isSubAt needle (c :: rest) || substrAux needle rest

/-- Python `needle in hay` for strings: substring containment. -/
def substr (needle hay : String) : Bool :=
  substrAux needle.toList hay.toList

/-- Python `any(word in hay for word in needles)`. -/
def containsAny (hay : String) (needles : List String) : Bool :=
  needles.any (fun n => substr n hay)

/-- Accumulating scanner for `pyWords`: `acc` holds the reversed characters
of the word being read. -/
def pyWordsAux (acc : List Char) : List Char → List String
  | [] => if acc.isEmpty then [] else [String.mk acc.reverse]
  | c :: rest =>
      if c.isWhitespace then
        if acc.isEmpty then pyWordsAux [] rest
        else String.mk acc.reverse :: pyWordsAux [] rest
      else pyWordsAux (c :: acc) rest

/-- Python `str.split()` with no argument: split on whitespace runs,
dropping empty pieces (ASCII whitespace). -/
def pyWords (s : String) : List String :=
  pyWordsAux [] s.toList

/-- Python `str.strip(chars)`: remove leading and trailing characters
belonging to `cs`. -/
def pyStripChars (cs : List Char) (s : String) : String :=
  let l := s.toList.dropWhile (fun c => cs.contains c)
  String.mk ((l.reverse.dropWhile (fun c => cs.contains c)).reverse)

/-- Python `str.strip(',.')` as used on titles and assignees. -/
def pyStripPunct (s : String) : String :=
  pyStripChars [',', '.'] s

/-- Python `str.strip()`: remove surrounding whitespace. -/
def pyStripWs (s : String) : String :=
  let l := s.toList.dropWhile Char.isWhitespace
  String.mk ((l.reverse.dropWhile Char.isWhitespace).reverse)

/-- Numeric value of a list of ASCII digits. -/
def digitsToNat (ds : List Char) : Nat :=
  ds.foldl (fun acc c => acc * 10 + (c.toNat - 48)) 0

/-- Python `int(s)` on a token: optional surrounding whitespace, an optional
sign, then one or more ASCII digits; `none` models `ValueError`.
(PEP 515 underscore grouping and non-ASCII digits are not modelled.) -/
def pyInt (s : String) : Option Int :=
  let cs := s.toList.dropWhile Char.isWhitespace
  let cs := (cs.reverse.dropWhile Char.isWhitespace).reverse
  match cs with
  | '-' :: rest =>
      if rest ≠ [] ∧ rest.all Char.isDigit then some (-(digitsToNat rest : Int)) else none
  | '+' :: rest =>
      if rest ≠ [] ∧ rest.all Char.isDigit then some (digitsToNat rest : Int) else none
  | rest =>
      if rest ≠ [] ∧ rest.all Char.isDigit then some (digitsToNat rest : Int) else none

/-! ### `extract_task_id` (src/app.py lines 139-153)

The four regular expressions `task\s+(\d+)`, `#(\d+)`, `id\s+(\d+)` and
`\b(\d+)\b` are modelled by dedicated leftmost-match scanners over the
lower-cased character list; `re.search` returns the leftmost match, and for
these patterns the captured group is the maximal digit run at that match. -/

/-- Match `key` + `\s+` + `(\d+)` at the head of `cs`, returning the captured
number. -/
def matchKeyWsNum (key : List Char) (cs : List Char) : Option Nat :=
  if isSubAt key cs then
    let rest := cs.drop key.length
    let ws := rest.takeWhile Char.isWhitespace
    let ds := (rest.dropWhile Char.isWhitespace).takeWhile Char.isDigit
    if ws ≠ [] ∧ ds ≠ [] then some (digitsToNat ds) else none
  else none

/-- Leftmost match of `key\s+(\d+)` anywhere in the list (the semantics of
`re.search` for that pattern). -/
def firstKeyWsNum (key : List Char) : List Char → Option Nat
  | [] => none
  | c :: rest =>
      match matchKeyWsNum key (c :: rest) with
      | some n => some n
      | none => firstKeyWsNum key rest

/-- Leftmost match of `task\s+(\d+)`. -/
def firstTaskNum (cs : List Char) : Option Nat :=
  firstKeyWsNum ['t', 'a', 's', 'k'] cs

/-- Leftmost match of `id\s+(\d+)`. -/
def firstIdNum (cs : List Char) : Option Nat :=
  firstKeyWsNum ['i', 'd'] cs

/-- Leftmost match of `#(\d+)`. -/
def firstHashNum : List Char → Option Nat
  | [] => none
  | '#' :: rest =>
      let ds := rest.takeWhile Char.isDigit
      if ds ≠ [] then some (digitsToNat ds) else firstHashNum rest
  | _ :: rest => firstHashNum rest

/-- Regex word character (`\w` over ASCII): letter, digit or underscore. -/
def isWordChar (c : Char) : Bool :=
  c.isAlphanum || c = '_'

/-- Scanner for `\b(\d+)\b` carrying the previous character: a digit run
matches when it is not adjacent to a word character on either side. -/
def firstBareNumAux (prev : Option Char) : List Char → Option Nat
  | [] => none
  | c :: rest =>
      if c.isDigit && (match prev with | none => true | some p => !isWordChar p) then
        let ds := (c :: rest).takeWhile Char.isDigit
        match (c :: rest).dropWhile Char.isDigit with
        | [] => some (digitsToNat ds)
        | a :: _ =>
            if isWordChar a then firstBareNumAux (some c) rest
            else some (digitsToNat ds)
      else firstBareNumAux (some c) rest

/-- Leftmost match of `\b(\d+)\b` (any standalone number). -/
def firstBareNum (cs : List Char) : Option Nat :=
  firstBareNumAux none cs

/-- The pattern cascade of `extract_task_id`, in source order. -/
def extract_task_id_chars (cs : List Char) : Option Nat :=
  match firstTaskNum cs with
  | some n => some n
  | none =>
      match firstHashNum cs with
      | some n => some n
      | none =>
          match firstIdNum cs with
          | some n => some n
          | none => firstBareNum cs

/-- `extract_task_id` (src/app.py): try `task\s+(\d+)`, `#(\d+)`,
`id\s+(\d+)`, `\b(\d+)\b` in that order on the lower-cased message. -/
def extract_task_id (message : String) : Option Nat :=
  extract_task_id_chars (lowerChars message)

/-- `extract_status` (src/app.py lines 155-166): three substring keyword
sets tested in order on the lower-cased message. -/
def extract_status (message : String) : Option String :=
  if containsAny (pyLower message) ["todo", "to do", "backlog"] then some "todo"
  else if containsAny (pyLower message) ["progress", "doing", "working", "started"] then
    some "in_progress"
  else if containsAny (pyLower message) ["done", "completed", "finished", "complete"] then
    some "done"
  else none

/-! ### `parse_task_creation` (src/app.py lines 95-137)

The four `for`-loops of the source are independent scans over
`words = message.split()`; each is modelled by a structurally recursive
function over the token list. -/

/-- The assignee loop: the first token `w` with `w.lower() == "for"` that has
a successor yields that successor stripped of `',.'`; a trailing `for` (no
successor) does not match and the loop falls through to `""`. -/
def findAssignee : List String → String
  | [] => ""
  | [_] => ""
  | w :: next :: rest =>
      if pyLower w = "for" then pyStripPunct next else findAssignee (next :: rest)

/-- The priority loop. A token `priority`/`p` with a successor tries
`int(successor)`; on success the loop breaks with that value, on
`ValueError` it continues without touching the accumulator. A `high`/`low`
token overwrites the accumulator (8 / 3) and the scan continues. -/
def findPriority (acc : Int) : List String → Int
  | [] => acc
  | [w] =>
      if pyLower w = "high" then 8
      else if pyLower w = "low" then 3
      else acc
  | w :: next :: rest =>
      if pyLower w = "priority" ∨ pyLower w = "p" then
        match pyInt next with
        | some n => n
        | none => findPriority acc (next :: rest)
      else if pyLower w = "high" then findPriority 8 (next :: rest)
      else if pyLower w = "low" then findPriority 3 (next :: rest)
      else findPriority acc (next :: rest)

/-- Title trigger words (`add`, `create`, `new`, `task`), as exact lower-cased
tokens. -/
def isTriggerWord (w : String) : Bool :=
  pyLower w = "add" || pyLower w = "create" || pyLower w = "new" || pyLower w = "task"

/-- Title stop words (`for`, `priority`, `p`), as exact lower-cased tokens. -/
def isStopWord (w : String) : Bool :=
  pyLower w = "for" || pyLower w = "priority" || pyLower w = "p"

/-- The trigger loop: the suffix after the first trigger token, or `none`
when no trigger occurs (in which case the source leaves `start_idx = 0`). -/
def afterTrigger : List String → Option (List String)
  | [] => none
  | w :: rest => if isTriggerWord w then some rest else afterTrigger rest

/-- The title built from the span source: the tokens up to the first stop
word, joined with single spaces and stripped of `',.'`; the placeholder
`"New Task"` survives exactly when that span is empty (the source condition
`start_idx < end_idx` fails). -/
def titleSpan (spanSrc : List String) : String :=
  let span := spanSrc.takeWhile (fun w => !isStopWord w)
  if span.isEmpty then "New Task"
  else pyStripPunct (String.intercalate " " span)

/-- The title: the span starts after the first trigger token when there is
one, and at the first token otherwise (`start_idx = 0`). -/
def titleOf (words : List String) : String :=
  titleSpan (match afterTrigger words with | some r => r | none => words)

/-- `parse_task_creation` (src/app.py): `(title, assignee, priority)` from
the whitespace-split tokens of the raw (not lower-cased) message. -/
def parse_task_creation (message : String) : String × String × Int :=
  (titleOf (pyWords message), findAssignee (pyWords message), findPriority 5 (pyWords message))

/-! ### The task store (src/tools.py)

`tasks.db` is modelled as a `Store` value; each tool is a pure function on
it returning the same formatted strings the source builds. -/

structure Sprint where
  id : Nat
  name : String
  startDate : String
  endDate : String
  isActive : Bool
deriving DecidableEq

structure Task where
  id : Nat
  title : String
  description : String
  assignee : String
  priority : Int
  status : String
  blocker : Option String
  sprintId : Nat
  createdAt : Nat
deriving DecidableEq

structure Store where
  sprints : List Sprint
  tasks : List Task
  nextId : Nat
deriving DecidableEq

/-- `SELECT id ... FROM sprints WHERE is_active = 1 LIMIT 1`. -/
def activeSprint (store : Store) : Option Sprint :=
  store.sprints.find? (fun sp => sp.isActive)

/-- `SELECT ... FROM tasks WHERE id = ?` + `fetchone()`. -/
def findTask (store : Store) (taskId : Nat) : Option Task :=
  store.tasks.find? (fun t => t.id == taskId)

/-- The status display map `{'todo': 'To Do', 'in_progress': 'In Progress',
'done': 'Done'}` (total here; the source only applies it to the three
validated statuses). -/
def statusDisplay (status : String) : String :=
  if status = "todo" then "To Do"
  else if status = "in_progress" then "In Progress"
  else "Done"

/-- The status emoji map `{'todo': '📝', 'in_progress': '🔄', 'done': '✅'}`. -/
def statusEmoji (status : String) : String :=
  if status = "todo" then "📝"
  else if status = "in_progress" then "🔄"
  else "✅"

/-- `add_task` (src/tools.py lines 19-61): insert into the active sprint;
the new row takes the AUTOINCREMENT id and the next timestamp. -/
def add_task (title description assignee : String) (priority : Int) (status : String)
    (blocker : Option String) (store : Store) : String × Store :=
  match activeSprint store with
  | none => ("Error: No active sprint found", store)
  | some sp =>
      let taskId := store.nextId
      let newTask : Task :=
        ⟨taskId, title, description, assignee, priority, status, blocker, sp.id, taskId⟩
      let shownAssignee := if assignee = "" then "Unassigned" else assignee
      ("✅ Successfully added task \x27" ++ title ++ "\x27 with ID " ++ toString taskId
         ++ " assigned to " ++ shownAssignee,
       ⟨store.sprints, store.tasks ++ [newTask], store.nextId + 1⟩)

/-- `update_task_status` (src/tools.py lines 63-102): validate the status,
look the task up, then update the row. -/
def update_task_status (taskId : Nat) (status : String) (store : Store) : String × Store :=
  if ¬(status = "todo" ∨ status = "in_progress" ∨ status = "done") then
    ("❌ Error: Status must be \x27todo\x27, \x27in_progress\x27, or \x27done\x27", store)
  else
    match findTask store taskId with
    | none => ("❌ Error: Task with ID " ++ toString taskId ++ " not found", store)
    | some t =>
        let tasks2 := store.tasks.map (fun u =>
          if u.id == taskId then
            ⟨u.id, u.title, u.description, u.assignee, u.priority, status, u.blocker,
             u.sprintId, u.createdAt⟩
          else u)
        ("✅ Successfully moved task \x27" ++ t.title ++ "\x27 (ID " ++ toString taskId
           ++ ") to " ++ statusDisplay status,
         ⟨store.sprints, tasks2, store.nextId⟩)

/-- `delete_task` (src/tools.py lines 104-133). -/
def delete_task (taskId : Nat) (store : Store) : String × Store :=
  match findTask store taskId with
  | none => ("❌ Error: Task with ID " ++ toString taskId ++ " not found", store)
  | some t =>
      ("🗑️ Successfully deleted task \x27" ++ t.title ++ "\x27 (ID " ++ toString taskId ++ ")",
       ⟨store.sprints, store.tasks.filter (fun u => u.id != taskId), store.nextId⟩)

/-- `ORDER BY priority DESC, created_at ASC` as a Boolean order. -/
def taskLE (a b : Task) : Bool :=
  decide (b.priority < a.priority ∨ (a.priority = b.priority ∧ a.createdAt ≤ b.createdAt))

/-- Stable insertion for `sortTasks`. -/
def insertByOrder (t : Task) : List Task → List Task
  | [] => [t]
  | u :: us => if taskLE u t then u :: insertByOrder t us else t :: u :: us

/-- Stable sort of the selected rows under `taskLE`. -/
def sortTasks (ts : List Task) : List Task :=
  ts.foldr insertByOrder []

/-- The per-task fragment shared by both `get_tasks` layouts:
`#id: title` + optional ` (assignee)` + optional ` [Pn]` + optional blocker. -/
def taskEntryCommon (t : Task) : String :=
  "#" ++ toString t.id ++ ": " ++ t.title
    ++ (if t.assignee ≠ "" then " (" ++ t.assignee ++ ")" else "")
    ++ (if t.priority ≠ 5 then " [P" ++ toString t.priority ++ "]" else "")
    ++ (match t.blocker with | some b => " 🚫 " ++ b | none => "")

/-- One grouped block of the unfiltered `get_tasks` layout (header plus
two-space indented entries, skipped when the group is empty). -/
def groupBlock (tasks : List Task) (statusKey : String) : String :=
  let group := tasks.filter (fun t => t.status == statusKey)
  if group.isEmpty then ""
  else
    "**" ++ statusEmoji statusKey ++ " " ++ statusDisplay statusKey ++ ":**\n"
      ++ String.join (group.map (fun t => "  • " ++ taskEntryCommon t ++ "\n"))
      ++ "\n"

/-- The single-status `get_tasks` layout (bulleted entries with interleaved
descriptions). -/
def filteredBlock (tasks : List Task) (status : String) : String :=
  "**" ++ statusEmoji status ++ " " ++ statusDisplay status ++ ":**\n"
    ++ String.join (tasks.map (fun t =>
        "• " ++ taskEntryCommon t
          ++ (if t.description ≠ "" then "\n  📄 " ++ t.description else "")
          ++ "\n"))

/-- `get_tasks` (src/tools.py lines 135-230): select the active sprint's
rows (optionally filtered by status), sort, and format. -/
def get_tasks (status : Option String) (store : Store) : String :=
  match activeSprint store with
  | none => "❌ Error: No active sprint found"
  | some sp =>
      let tasks := sortTasks (store.tasks.filter (fun t =>
        t.sprintId == sp.id &&
          (match status with | some st => t.status == st | none => true)))
      if tasks.isEmpty then
        "📋 No tasks found in sprint \x27" ++ sp.name ++ "\x27"
          ++ (match status with
              | some st => " with status \x27" ++ st ++ "\x27"
              | none => "")
      else
        let header := "📋 **" ++ sp.name ++ "** (" ++ toString tasks.length ++ " tasks)\n\n"
        let body :=
          match status with
          | none =>
              groupBlock tasks "todo" ++ groupBlock tasks "in_progress" ++ groupBlock tasks "done"
          | some st => filteredBlock tasks st
        pyStripWs (header ++ body)

/-- Round the non-negative fraction `n / d` to the nearest natural number
with round-half-to-even ties — the tie-breaking used by Python `round`. -/
def roundHalfEvenFrac (n d : Nat) : Nat :=
  let q := n / d
  let r := n % d
  if 2 * r < d then q
  else if d < 2 * r then q + 1
  else if q % 2 = 0 then q else q + 1

/-- `round((done / total) * 100, 1)` expressed in tenths of a percent:
`(done / total) * 100 * 10 = done * 1000 / total` exactly, so the float
computation of the source is modelled by exact rounding of that fraction. -/
def completionTenths (done total : Nat) : Nat :=
  roundHalfEvenFrac (done * 1000) total

/-- Render a tenths value the way Python prints the rounded float (one
digit after the decimal point). -/
def formatTenths (n : Nat) : String :=
  toString (n / 10) ++ "." ++ toString (n % 10)

/-- `get_task_stats` (src/tools.py lines 232-291): counts per status, the
blocked count, and the completion percentage, with the `total == 0` guard. -/
def get_task_stats (store : Store) : String :=
  match activeSprint store with
  | none => "❌ Error: No active sprint found"
  | some sp =>
      let tasks := store.tasks.filter (fun t => t.sprintId == sp.id)
      let total := tasks.length
      let blocked := (tasks.filter (fun t => t.blocker.isSome)).length
      if total = 0 then "📊 **" ++ sp.name ++ "**: No tasks yet!"
      else
        let todoCount := (tasks.filter (fun t => t.status == "todo")).length
        let progressCount := (tasks.filter (fun t => t.status == "in_progress")).length
        let doneCount := (tasks.filter (fun t => t.status == "done")).length
        let rate := if 0 < total then formatTenths (completionTenths doneCount total) else "0"
        "📊 **Sprint Statistics: " ++ sp.name ++ "**\n\n"
          ++ "📝 To Do: " ++ toString todoCount ++ "\n"
          ++ "🔄 In Progress: " ++ toString progressCount ++ "\n"
          ++ "✅ Done: " ++ toString doneCount ++ "\n"
          ++ "🚫 Blocked: " ++ toString blocked ++ "\n\n"
          ++ "📈 **Progress: " ++ rate ++ "%** (" ++ toString doneCount ++ "/"
          ++ toString total ++ " completed)"

/-! ### The dispatcher `process_ai_request` (src/app.py lines 25-93) -/

/-- One external call performed by the interpreter: the Gemini
`generate_content` call or one of the five store tools. -/
inductive Call where
  | generate : Call
  | getStats : Call
  | getTasks : Option String → Call
  | addTask : String → String → Int → Call
  | deleteTask : Nat → Call
  | updateStatus : Nat → String → Call
deriving DecidableEq

def statsWords : List String := ["stats", "statistics", "summary", "progress", "overview"]

def listWords : List String := ["show", "list", "get", "display"]

def addWords : List String := ["add", "create", "new"]

def deleteWords : List String := ["delete", "remove"]

def updateWords : List String := ["move", "update", "change"]

/-- The body of the `try:` block of `process_ai_request`. `gen` is the
outcome of `model.generate_content(system_prompt)` (the only statement in
the block that can raise); an `.error` result is the exception escaping the
block together with the calls already made. The `.ok` result carries the
response text, the updated store, and the calls performed. Python truthiness
on `task_id` / `status` (`if task_id:` treats `0` and `None` alike) is
modelled explicitly. -/
def process_ai_request_try (userMessage : String) (gen : Except String String) (store : Store) :
    Except (String × List Call) (String × Store × List Call) :=
  match gen with
  | Except.error e => Except.error (e, [Call.generate])
  | Except.ok aiResponse =>
      let userLower := pyLower userMessage
      if containsAny userLower statsWords then
        Except.ok (get_task_stats store, store, [Call.generate, Call.getStats])
      else if containsAny userLower listWords && substr "task" userLower then
        if substr "todo" userLower then
          Except.ok (get_tasks (some "todo") store, store,
            [Call.generate, Call.getTasks (some "todo")])
        else if containsAny userLower ["progress", "doing", "working"] then
          Except.ok (get_tasks (some "in_progress") store, store,
            [Call.generate, Call.getTasks (some "in_progress")])
        else if containsAny userLower ["done", "completed", "finished"] then
          Except.ok (get_tasks (some "done") store, store,
            [Call.generate, Call.getTasks (some "done")])
        else
          Except.ok (get_tasks none store, store, [Call.generate, Call.getTasks none])
      else if containsAny userLower addWords && substr "task" userLower then
        let title := (parse_task_creation userMessage).1
        let assignee := (parse_task_creation userMessage).2.1
        let priority := (parse_task_creation userMessage).2.2
        Except.ok ((add_task title "" assignee priority "todo" none store).1,
          (add_task title "" assignee priority "todo" none store).2,
          [Call.generate, Call.addTask title assignee priority])
      else if containsAny userLower deleteWords && substr "task" userLower then
        match extract_task_id userMessage with
        | some taskId =>
            if taskId ≠ 0 then
              Except.ok ((delete_task taskId store).1, (delete_task taskId store).2,
                [Call.generate, Call.deleteTask taskId])
            else
              Except.ok ("Please specify a task ID to delete (e.g., \x27delete task 5\x27)",
                store, [Call.generate])
        | none =>
            Except.ok ("Please specify a task ID to delete (e.g., \x27delete task 5\x27)",
              store, [Call.generate])
      else if containsAny userLower updateWords && substr "task" userLower then
        match extract_task_id userMessage, extract_status userMessage with
        | some taskId, some status =>
            if taskId ≠ 0 ∧ status ≠ "" then
              Except.ok ((update_task_status taskId status store).1,
                (update_task_status taskId status store).2,
                [Call.generate, Call.updateStatus taskId status])
            else
              Except.ok ("Please specify task ID and status (e.g., \x27move task 1 to done\x27)",
                store, [Call.generate])
        | _, _ =>
            Except.ok ("Please specify task ID and status (e.g., \x27move task 1 to done\x27)",
              store, [Call.generate])
      else
        Except.ok (aiResponse, store, [Call.generate])

/-- `process_ai_request` with its `except Exception as e` handler: an
exception escaping the `try:` block is converted to the
`"Sorry, I encountered an error: ..."` reply. -/
def process_ai_request (userMessage : String) (gen : Except String String) (store : Store) :
    String × Store × List Call :=
  match process_ai_request_try userMessage gen store with
  | Except.ok r => r
  | Except.error (e, calls) => ("Sorry, I encountered an error: " ++ e, store, calls)

/-! ### Concrete stores used by witnesses and counterexamples -/

def sampleSprint : Sprint :=
  ⟨1, "Sprint 1 - Q4 Planning", "2024-09-16", "2024-09-30", true⟩

def sampleTask : Task :=
  ⟨1, "User Authentication System", "Implement JWT-based login", "John", 8, "in_progress",
   none, 1, 1⟩

def sampleStore : Store :=
  ⟨[sampleSprint], [sampleTask], 2⟩

/-- A store with an active sprint and no tasks. -/
def emptyStore : Store :=
  ⟨[sampleSprint], [], 1⟩

/-- A store with 4 tasks in the active sprint, exactly 1 of them done. -/
def statsStore : Store :=
  ⟨[sampleSprint],
   [⟨1, "Auth", "", "John", 5, "todo", none, 1, 1⟩,
    ⟨2, "Migration", "", "Sarah", 5, "todo", none, 1, 2⟩,
    ⟨3, "Docs", "", "Mike", 5, "in_progress", none, 1, 3⟩,
    ⟨4, "Dashboard", "", "Bob", 5, "done", none, 1, 4⟩],
   5⟩

/-! ### Spec-side definitions used to state corrected claims -/

/-- The status filter the list branch actually applies (src/app.py lines
58-65): its own inlined keyword checks, not `extract_status` — `started`,
`backlog`, `to do` and a bare `complete` are not consulted here. -/
def listFilter (userLower : String) : Option String :=
  if substr "todo" userLower then some "todo"
  else if containsAny userLower ["progress", "doing", "working"] then some "in_progress"
  else if containsAny userLower ["done", "completed", "finished"] then some "done"
  else none

/-- The first explicit numeric priority of the token list: the integer
parsed from the successor of the first `priority`/`p` token whose successor
parses (mirroring that only a successful parse breaks the source's loop). -/
def firstExplicit : List String → Option Int
  | [] => none
  | [_] => none
  | w :: next :: rest =>
      if pyLower w = "priority" ∨ pyLower w = "p" then
        match pyInt next with
        | some n => some n
        | none => firstExplicit (next :: rest)
      else firstExplicit (next :: rest)

/-! ### Helper lemmas shared by the claim theorems -/

/-- If no token is a trigger word, the trigger loop leaves `start_idx = 0`. -/
theorem afterTrigger_eq_none (words : List String)
    (h : ∀ w ∈ words, isTriggerWord w = false) : afterTrigger words = none := by
  induction words with
  | nil => rfl
  | cons w rest ih =>
      have hw := h w (List.mem_cons_self w rest)
      simp only [afterTrigger, hw, Bool.false_eq_true, if_false]
      exact ih (fun x hx => h x (List.mem_cons_of_mem w hx))

/-- Whenever some `priority`/`p` token has a successor that parses as an
integer, the priority loop returns the first such integer regardless of the
accumulator (so regardless of any earlier `high`/`low` token). -/
theorem findPriority_of_firstExplicit :
    ∀ (words : List String) (n : Int) (acc : Int),
      firstExplicit words = some n → findPriority acc words = n := by
  intro words
  induction words with
  | nil => intro n acc h; simp [firstExplicit] at h
  | cons w rest ih =>
      intro n acc h
      cases rest with
      | nil => simp [firstExplicit] at h
      | cons next rest2 =>
          by_cases hp : pyLower w = "priority" ∨ pyLower w = "p"
          · simp only [firstExplicit, if_pos hp] at h
            simp only [findPriority, if_pos hp]
            cases hpi : pyInt next with
            | some m =>
                rw [hpi] at h
                simp only [Option.some.injEq] at h
                exact h
            | none =>
                rw [hpi] at h
                exact ih n acc h
          · simp only [firstExplicit, if_neg hp] at h
            simp only [findPriority, if_neg hp]
            by_cases hh : pyLower w = "high"
            · rw [if_pos hh]; exact ih n 8 h
            · rw [if_neg hh]
              by_cases hlo : pyLower w = "low"
              · rw [if_pos hlo]; exact ih n 3 h
              · rw [if_neg hlo]; exact ih n acc h

/-- The only exception that can escape the `try:` block is the Gemini call
failing; it escapes with the generate call as the only call made. -/
theorem try_error_inv (msg : String) (gen : Except String String) (store : Store)
    (e : String) (calls : List Call)
    (h : process_ai_request_try msg gen store = Except.error (e, calls)) :
    gen = Except.error e ∧ calls = [Call.generate] := by
  cases gen with
  | error e0 =>
      have h0 : process_ai_request_try msg (Except.error e0) store
          = Except.error (e0, [Call.generate]) := rfl
      rw [h0] at h
      injection h with h1
      injection h1 with h2 h3
      subst h2
      subst h3
      exact ⟨rfl, rfl⟩
  | ok r =>
      exfalso
      simp only [process_ai_request_try] at h
      repeat' split at h
      all_goals simp at h

/-- Every successful interpretation's call trace starts with the single
generate call. -/
theorem try_trace (msg r : String) (store : Store) :
    ∀ out, process_ai_request_try msg (Except.ok r) store = Except.ok out →
      ∃ rest : List Call, out.2.2 = Call.generate :: rest ∧
        rest.count Call.generate = 0 := by
  intro out h
  simp only [process_ai_request_try] at h
  repeat' split at h
  all_goals (injection h with h1; subst h1; exact ⟨_, rfl, rfl⟩)

/-! ### Claim theorems -/

/-- C1, counterexample: on "move task 42 to done" the extracted status is
"todo", not "done" — the lower-cased text contains the substring "to do"
(inside " to done") and the todo synonym set is tested first — so the
dispatched call is `updateStatus 42 "todo"`, contradicting the claimed
`updateStatus(42, "done")`. -/
theorem C1_cex :
    extract_status "move task 42 to done" = some "todo" ∧
    extract_status "move task 42 to done" ≠ some "done" ∧
    (process_ai_request "move task 42 to done" (Except.ok "ok") emptyStore).2.2
      = [Call.generate, Call.updateStatus 42 "todo"] :=
  ⟨by decide, by decide, by decide⟩

/-- C1 (amended): for the message "move task 42 to done" on a store with no
task 42, the interpreter extracts task id 42 but status "todo" (the "to do"
substring of " to done" matches the first synonym set), dispatches
`updateStatus 42 "todo"`, the store reports the task missing, and interpret
returns the "Task with ID 42 not found" message without any exception
escaping the `try:` block. -/
theorem C1_update_notfound (r : String) (store : Store)
    (h : findTask store 42 = none) :
    process_ai_request "move task 42 to done" (Except.ok r) store
      = ("❌ Error: Task with ID 42 not found", store,
         [Call.generate, Call.updateStatus 42 "todo"]) ∧
    process_ai_request_try "move task 42 to done" (Except.ok r) store
      = Except.ok ("❌ Error: Task with ID 42 not found", store,
         [Call.generate, Call.updateStatus 42 "todo"]) ∧
    substr "Task with ID 42 not found" "❌ Error: Task with ID 42 not found" = true := by
  have hu : update_task_status 42 "todo" store
      = ("❌ Error: Task with ID 42 not found", store) := by
    unfold update_task_status
    rw [if_neg (by decide), h]
    rfl
  have ht : process_ai_request_try "move task 42 to done" (Except.ok r) store
      = Except.ok ((update_task_status 42 "todo" store).1,
          (update_task_status 42 "todo" store).2,
          [Call.generate, Call.updateStatus 42 "todo"]) := rfl
  refine ⟨?_, ?_, by decide⟩
  · unfold process_ai_request
    rw [ht, hu]
  · rw [ht, hu]

/-- C1 witness: the amended theorem evaluated on the task-less store. -/
theorem C1_witness :
    process_ai_request "move task 42 to done" (Except.ok "resp") emptyStore
      = ("❌ Error: Task with ID 42 not found", emptyStore,
         [Call.generate, Call.updateStatus 42 "todo"]) ∧
    process_ai_request_try "move task 42 to done" (Except.ok "resp") emptyStore
      = Except.ok ("❌ Error: Task with ID 42 not found", emptyStore,
         [Call.generate, Call.updateStatus 42 "todo"]) ∧
    substr "Task with ID 42 not found" "❌ Error: Task with ID 42 not found" = true :=
  C1_update_notfound "resp" emptyStore rfl

/-- C2: any message whose lower-cased text contains one of the five stats
keywords is routed to the stats branch: `get_task_stats` is the single tool
call and its formatted result is returned, regardless of any other content
of the message. -/
theorem C2_stats_branch (msg r : String) (store : Store)
    (h : containsAny (pyLower msg) statsWords = true) :
    process_ai_request msg (Except.ok r) store
      = (get_task_stats store, store, [Call.generate, Call.getStats]) ∧
    ((process_ai_request msg (Except.ok r) store).2.2).count Call.getStats = 1 := by
  have he : process_ai_request msg (Except.ok r) store
      = (get_task_stats store, store, [Call.generate, Call.getStats]) := by
    unfold process_ai_request process_ai_request_try
    simp [h]
  exact ⟨he, by rw [he]; rfl⟩

/-- C2 witness: a message containing both "stats" and "task"/"show" still
routes to `get_task_stats`. -/
theorem C2_witness :
    process_ai_request "show task stats" (Except.ok "x") sampleStore
      = (get_task_stats sampleStore, sampleStore, [Call.generate, Call.getStats]) ∧
    ((process_ai_request "show task stats" (Except.ok "x") sampleStore).2.2).count
        Call.getStats = 1 :=
  C2_stats_branch "show task stats" "x" sampleStore (by decide)

/-- C3, counterexample: in "high priority 2" the standalone "high" token is
encountered before the explicit pattern "priority 2", yet the extracted
priority is 2, not the claimed 8 — `high` only assigns without breaking the
loop, while a successful numeric parse breaks. -/
theorem C3_cex :
    pyWords "high priority 2" = ["high", "priority", "2"] ∧
    (parse_task_creation "high priority 2").2.2 = 2 ∧
    (parse_task_creation "high priority 2").2.2 ≠ 8 :=
  ⟨by decide, by decide, by decide⟩

/-- C3 (amended): the explicit numeric priority wins whenever one is
present, regardless of scan order: if some `priority`/`p` token is followed
by a token parsing as an integer, the extracted priority is the integer at
the first such occurrence; `high`/`low` tokens only set the value without
stopping the scan and so are overridden. -/
theorem C3_explicit_priority_wins (msg : String) (n : Int)
    (h : firstExplicit (pyWords msg) = some n) :
    (parse_task_creation msg).2.2 = n :=
  findPriority_of_firstExplicit (pyWords msg) n 5 h

/-- C3 witness: "high priority 2" has the explicit priority 2, and the
parser extracts 2. -/
theorem C3_witness :
    firstExplicit (pyWords "high priority 2") = some 2 ∧
    (parse_task_creation "high priority 2").2.2 = 2 :=
  ⟨by decide, C3_explicit_priority_wins "high priority 2" 2 (by decide)⟩

/-- C4, counterexample: "hello for Bob" contains no trigger token, yet the
title is "hello" (the span starts at token 0, since `start_idx` keeps its
initialisation 0 when the trigger loop finds nothing) and the assignee is
"Bob" (the `for` loop runs independently of trigger words) — not the
claimed ("New Task", ""). -/
theorem C4_cex :
    (pyWords "hello for Bob").all (fun w => !isTriggerWord w) = true ∧
    parse_task_creation "hello for Bob" = ("hello", "Bob", 5) ∧
    (parse_task_creation "hello for Bob").1 ≠ "New Task" ∧
    (parse_task_creation "hello for Bob").2.1 ≠ "" :=
  ⟨by decide, by decide, by decide, by decide⟩

/-- C4 (amended): with no trigger token, the title span starts at the first
token and runs to the first `for`/`priority`/`p` token, giving "New Task"
only when that span is empty; the assignee is still the stripped token
following the first `for` with a successor. -/
theorem C4_no_trigger_title (msg : String)
    (h : ∀ w ∈ pyWords msg, isTriggerWord w = false) :
    (parse_task_creation msg).1 = titleSpan (pyWords msg) ∧
    (parse_task_creation msg).2.1 = findAssignee (pyWords msg) := by
  refine ⟨?_, rfl⟩
  show titleOf (pyWords msg) = titleSpan (pyWords msg)
  unfold titleOf
  rw [afterTrigger_eq_none (pyWords msg) h]

/-- C4 witness: the amended theorem evaluated on "hello for Bob". -/
theorem C4_witness :
    (parse_task_creation "hello for Bob").1 = titleSpan (pyWords "hello for Bob") ∧
    (parse_task_creation "hello for Bob").2.1 = findAssignee (pyWords "hello for Bob") :=
  C4_no_trigger_title "hello for Bob" (by decide)

/-- C5, counterexample: "show started tasks" is classified as a list
request and `extract_status` maps it to `in_progress` via the "started"
synonym, yet the dispatcher calls `get_tasks` with no filter — the list
branch checks its own inlined keyword sets, which omit "started". -/
theorem C5_cex :
    extract_status "show started tasks" = some "in_progress" ∧
    (process_ai_request "show started tasks" (Except.ok "ok") sampleStore).2.2
      = [Call.generate, Call.getTasks none] :=
  ⟨by decide, by decide⟩

/-- C5 (amended): for every message classified as a list request, the
filter passed to `get_tasks` is `listFilter` — the branch's own inlined
checks ("todo" → todo; progress/doing/working → in_progress;
done/completed/finished → done; otherwise no filter) — not
`extract_status`'s three synonym sets. -/
theorem C5_list_filter (msg r : String) (store : Store)
    (h1 : containsAny (pyLower msg) statsWords = false)
    (h2 : containsAny (pyLower msg) listWords = true)
    (h3 : substr "task" (pyLower msg) = true) :
    process_ai_request msg (Except.ok r) store
      = (get_tasks (listFilter (pyLower msg)) store, store,
         [Call.generate, Call.getTasks (listFilter (pyLower msg))]) := by
  unfold process_ai_request process_ai_request_try listFilter
  by_cases c1 : substr "todo" (pyLower msg) = true
  · simp [h1, h2, h3, c1]
  · simp only [Bool.not_eq_true] at c1
    by_cases c2 : containsAny (pyLower msg) ["progress", "doing", "working"] = true
    · simp [h1, h2, h3, c1, c2]
    · simp only [Bool.not_eq_true] at c2
      by_cases c3 : containsAny (pyLower msg) ["done", "completed", "finished"] = true
      · simp [h1, h2, h3, c1, c2, c3]
      · simp only [Bool.not_eq_true] at c3
        simp [h1, h2, h3, c1, c2, c3]

/-- C5 witness: "list tasks" carries no filter keyword and dispatches an
unfiltered `get_tasks`. -/
theorem C5_witness :
    process_ai_request "list tasks" (Except.ok "ok") sampleStore
      = (get_tasks (listFilter (pyLower "list tasks")) sampleStore, sampleStore,
         [Call.generate, Call.getTasks (listFilter (pyLower "list tasks"))]) :=
  C5_list_filter "list tasks" "ok" sampleStore (by decide) (by decide) (by decide)

/-- C6: whenever `task\s+(\d+)` matches the lower-cased message
(`firstTaskNum` is the leftmost such match), `extract_task_id` returns its
captured number, because that pattern is the first of the four tried. -/
theorem C6_task_pattern_first (msg : String) (n : Nat)
    (h : firstTaskNum (lowerChars msg) = some n) :
    extract_task_id msg = some n := by
  unfold extract_task_id extract_task_id_chars
  rw [h]

/-- C6 witness: "show #7 task 3" matches `task\s+(\d+)` with capture 3, and
`extract_task_id` returns 3 even though `#7` occurs earlier in the text. -/
theorem C6_witness :
    firstTaskNum (lowerChars "show #7 task 3") = some 3 ∧
    extract_task_id "show #7 task 3" = some 3 :=
  ⟨by decide, C6_task_pattern_first "show #7 task 3" 3 (by decide)⟩

/-- C7, counterexample: "delete task 0" yields the id 0 from
`extract_task_id`, yet the dispatcher returns the clarification message and
makes no store call — `if task_id:` is a Python truthiness test that treats
0 like None — contradicting the claim that every returned id is passed to
`deleteTask`. -/
theorem C7_cex :
    extract_task_id "delete task 0" = some 0 ∧
    process_ai_request "delete task 0" (Except.ok "ok") sampleStore
      = ("Please specify a task ID to delete (e.g., \x27delete task 5\x27)", sampleStore,
         [Call.generate]) :=
  ⟨by decide, by decide⟩

/-- C7 (amended): for every message classified as delete_task, if
`extract_task_id` finds no id or finds 0 (ids are truthiness-tested), the
interpreter returns the "Please specify a task ID to delete" clarification
with no store call; for every nonzero id returned, `delete_task` is called
with exactly that id. -/
theorem C7_delete_dispatch (msg r : String) (store : Store)
    (h1 : containsAny (pyLower msg) statsWords = false)
    (h2 : containsAny (pyLower msg) listWords = false)
    (h3 : containsAny (pyLower msg) addWords = false)
    (h4 : containsAny (pyLower msg) deleteWords = true)
    (h5 : substr "task" (pyLower msg) = true) :
    ((extract_task_id msg = none ∨ extract_task_id msg = some 0) →
        process_ai_request msg (Except.ok r) store
          = ("Please specify a task ID to delete (e.g., \x27delete task 5\x27)", store,
             [Call.generate])) ∧
    (∀ taskId : Nat, extract_task_id msg = some taskId → taskId ≠ 0 →
        process_ai_request msg (Except.ok r) store
          = ((delete_task taskId store).1, (delete_task taskId store).2,
             [Call.generate, Call.deleteTask taskId])) := by
  constructor
  · intro hid
    unfold process_ai_request process_ai_request_try
    rcases hid with hid | hid <;> simp [h1, h2, h3, h4, h5, hid]
  · intro taskId hid hne
    unfold process_ai_request process_ai_request_try
    simp [h1, h2, h3, h4, h5, hid, hne]

/-- C7 witness: "delete task 5" dispatches `delete_task 5`. -/
theorem C7_witness :
    process_ai_request "delete task 5" (Except.ok "ok") sampleStore
      = ((delete_task 5 sampleStore).1, (delete_task 5 sampleStore).2,
         [Call.generate, Call.deleteTask 5]) :=
  (C7_delete_dispatch "delete task 5" "ok" sampleStore (by decide) (by decide) (by decide)
    (by decide) (by decide)).2 5 (by decide) (by decide)

/-- C8: interpret never lets an exception reach its caller. The only
statement of the `try:` block that can raise is the generate call; whenever
the block's outcome is an escaping exception, that exception is the
backend's, and `process_ai_request` converts it into the returned "Sorry, I
encountered an error" text; every non-raising outcome (including the
in-band missing-entity clarifications and the store's not-found /
no-active-sprint texts) is returned unchanged. -/
theorem C8_no_exception_escape (msg : String) (gen : Except String String) (store : Store) :
    (∀ e calls, process_ai_request_try msg gen store = Except.error (e, calls) →
        gen = Except.error e ∧ calls = [Call.generate] ∧
        process_ai_request msg gen store
          = ("Sorry, I encountered an error: " ++ e, store, calls)) ∧
    (∀ out, process_ai_request_try msg gen store = Except.ok out →
        process_ai_request msg gen store = out) := by
  constructor
  · intro e calls h
    obtain ⟨hg, hc⟩ := try_error_inv msg gen store e calls h
    subst hg
    subst hc
    exact ⟨rfl, rfl, rfl⟩
  · intro out h
    unfold process_ai_request
    rw [h]

/-- C8 witness: a failing backend call is converted into the error reply. -/
theorem C8_witness :
    process_ai_request "hi" (Except.error "boom") sampleStore
      = ("Sorry, I encountered an error: boom", sampleStore, [Call.generate]) :=
  ((C8_no_exception_escape "hi" (Except.error "boom") sampleStore).1 "boom"
    [Call.generate] rfl).2.2

/-- C9: the completion percentage is `round(done / total * 100, 1)` shown
with one decimal place — `statsStore` has 4 tasks with 1 done and its stats
message contains "25.0%" — and a store whose active sprint has no tasks
gets the "No tasks yet" message instead of a division. -/
theorem C9_completion_rate :
    statsStore.tasks.length = 4 ∧
    (statsStore.tasks.filter (fun t => t.status == "done")).length = 1 ∧
    completionTenths 1 4 = 250 ∧
    formatTenths (completionTenths 1 4) = "25.0" ∧
    substr "25.0%" (get_task_stats statsStore) = true ∧
    substr "No tasks yet" (get_task_stats emptyStore) = true :=
  ⟨rfl, rfl, rfl, rfl, by decide, by decide⟩

/-- C10: the generate call happens exactly once, first, for every message:
every call trace starts with `Call.generate` and contains no second one;
and when the backend raises, interpret returns the error string with the
store untouched and no store call made, whatever intent the message
carries. -/
theorem C10_generate_first (msg e : String) (store : Store) :
    process_ai_request msg (Except.error e) store
      = ("Sorry, I encountered an error: " ++ e, store, [Call.generate]) ∧
    (∀ gen : Except String String, ∃ rest : List Call,
        (process_ai_request msg gen store).2.2 = Call.generate :: rest ∧
        rest.count Call.generate = 0) := by
  refine ⟨rfl, ?_⟩
  intro gen
  cases gen with
  | error e2 => exact ⟨[], rfl, rfl⟩
  | ok r =>
      cases htry : process_ai_request_try msg (Except.ok r) store with
      | error pr =>
          obtain ⟨hg, -⟩ := try_error_inv msg (Except.ok r) store pr.1 pr.2 (by rw [htry])
          exact absurd hg (by simp)
      | ok out =>
          have hp : process_ai_request msg (Except.ok r) store = out := by
            unfold process_ai_request
            rw [htry]
          obtain ⟨rest, hr, hc⟩ := try_trace msg r store out htry
          exact ⟨rest, by rw [hp, hr], hc⟩

end BoardBot
